import Mathlib

/-!
Verification of the navia-doc-validator repository.

The repository is a document-upload web application:
* a client-side batch upload coordinator (`FileUpload` component:
  `handleDrop`, `handleFileChange`, `handleUpload`, `handleReset`),
* a serverless relay endpoint (`validate-document` handler, whose full
  source is listed in DEPLOYMENT.md) that forwards one file per call to an
  inference API and normalizes the reply.

This file gives a shallow embedding of both parts.  External effects
(`fetch`, the inference API call, multipart form parsing) are modelled as
oracle inputs; `JSON.parse` is modelled by an executable JSON parser;
JavaScript string operations (`trim`, `startsWith`, anchored
`replace`) are modelled by executable character-list functions.
-/

namespace NaviaDoc

/-- JSON values, the result type of `JSON.parse`.  Numbers keep their
source lexeme (the claims never depend on numeric semantics, only on
syntactic identity and zero-ness for JS truthiness). -/
inductive Json where
  | null : Json
  | bool : Bool → Json
  | num : String → Json
  | str : String → Json
  | arr : List Json → Json
  | obj : List (String × Json) → Json
deriving Repr

/-- JSON / JS whitespace recognized by `JSON.parse` and `String.trim`. -/
def isWsChar (c : Char) : Bool :=
  c = ' ' || c = '\t' || c = '\n' || c = '\r' || c = '\x0b' || c = '\x0c'

/-- Drop leading whitespace. -/
def skipWs : List Char → List Char
  | [] => []
  | c :: cs => if isWsChar c then skipWs cs else c :: cs

/-- Model of JavaScript `String.prototype.trim`. -/
def jsTrim (s : String) : String :=
  String.mk (((s.toList.dropWhile isWsChar).reverse.dropWhile isWsChar).reverse)

/-- `charsStartWith p cs` holds when `p` is an initial segment of `cs`. -/
def charsStartWith : List Char → List Char → Bool
  | [], _ => true
  | _ :: _, [] => false
  | p :: ps, c :: cs => p = c && charsStartWith ps cs

/-- Model of JavaScript `s.startsWith(p)`. -/
def strStarts (s p : String) : Bool :=
  charsStartWith p.toList s.toList

/-- Model of JavaScript `s.endsWith(p)`. -/
def strEnds (s p : String) : Bool :=
  charsStartWith p.toList.reverse s.toList.reverse

/-- Model of the anchored `s.replace(/^p/, '')`: drop `p` from the front
when present, otherwise return `s` unchanged. -/
def dropLeading (s p : String) : String :=
  if strStarts s p then String.mk (s.toList.drop p.toList.length) else s

/-- Model of the anchored `s.replace(/p$/, '')`: drop `p` from the end
when present, otherwise return `s` unchanged. -/
def dropTrailing (s p : String) : String :=
  if strEnds s p then String.mk (s.toList.take (s.toList.length - p.toList.length)) else s

/-- Value of a JSON string escape character. -/
def unescape : Char → Option Char
  | '"' => some '"'
  | '\\' => some '\\'
  | '/' => some '/'
  | 'b' => some (Char.ofNat 8)
  | 'f' => some (Char.ofNat 12)
  | 'n' => some '\n'
  | 'r' => some '\r'
  | 't' => some '\t'
  | _ => none

/-- Hexadecimal digit value. -/
def hexVal (c : Char) : Option Nat :=
  if '0' ≤ c ∧ c ≤ '9' then some (c.toNat - '0'.toNat)
  else if 'a' ≤ c ∧ c ≤ 'f' then some (c.toNat - 'a'.toNat + 10)
  else if 'A' ≤ c ∧ c ≤ 'F' then some (c.toNat - 'A'.toNat + 10)
  else none

/-- Parse the body of a JSON string after the opening quote; returns the
decoded characters and the input remaining after the closing quote. -/
def parseStringBody : List Char → Option (List Char × List Char)
  | [] => none
  | '"' :: rest => some ([], rest)
  | '\\' :: 'u' :: a :: b :: c :: d :: rest => do
    let ha ← hexVal a
    let hb ← hexVal b
    let hc ← hexVal c
    let hd ← hexVal d
    let p ← parseStringBody rest
    some (Char.ofNat (((ha * 16 + hb) * 16 + hc) * 16 + hd) :: p.1, p.2)
  | '\\' :: e :: rest => do
    let ch ← unescape e
    let p ← parseStringBody rest
    some (ch :: p.1, p.2)
  | c :: rest =>
    if c.toNat < 32 then none
    else do
      let p ← parseStringBody rest
      some (c :: p.1, p.2)

/-- Fractional part of a JSON number lexeme (optional). -/
def parseFrac (cs : List Char) : Option (List Char × List Char) :=
  match cs with
  | '.' :: r =>
    match r.span Char.isDigit with
    | ([], _) => none
    | (ds, r2) => some ('.' :: ds, r2)
  | _ => some ([], cs)

/-- Exponent part of a JSON number lexeme (optional). -/
def parseExp (cs : List Char) : Option (List Char × List Char) :=
  match cs with
  | e :: r =>
    if e = 'e' || e = 'E' then
      let sr : List Char × List Char :=
        match r with
        | '+' :: r2 => (['+'], r2)
        | '-' :: r2 => (['-'], r2)
        | _ => ([], r)
      match sr.2.span Char.isDigit with
      | ([], _) => none
      | (ds, r2) => some (e :: sr.1 ++ ds, r2)
    else some ([], cs)
  | [] => some ([], [])

/-- Integer part of a JSON number lexeme (JSON forbids leading zeros). -/
def parseIntPart (cs : List Char) : Option (List Char × List Char) :=
  match cs with
  | '0' :: r => some (['0'], r)
  | c :: r =>
    if c.isDigit then
      match r.span Char.isDigit with
      | (ds, r2) => some (c :: ds, r2)
    else none
  | [] => none

/-- A JSON number lexeme: sign, integer part, fraction, exponent. -/
def parseNumLex (cs : List Char) : Option (List Char × List Char) := do
  let sr : List Char × List Char :=
    match cs with
    | '-' :: r => (['-'], r)
    | _ => ([], cs)
  let (ip, r1) ← parseIntPart sr.2
  let (fp, r2) ← parseFrac r1
  let (ep, r3) ← parseExp r2
  some (sr.1 ++ ip ++ fp ++ ep, r3)

mutual

/-- JSON value parser (fuel-indexed to ensure termination). -/
def parseVal : Nat → List Char → Option (Json × List Char)
  | 0, _ => none
  | fuel+1, cs =>
    match skipWs cs with
    | 'n' :: 'u' :: 'l' :: 'l' :: rest => some (Json.null, rest)
    | 't' :: 'r' :: 'u' :: 'e' :: rest => some (Json.bool true, rest)
    | 'f' :: 'a' :: 'l' :: 's' :: 'e' :: rest => some (Json.bool false, rest)
    | '"' :: rest => do
      let p ← parseStringBody rest
      some (Json.str (String.mk p.1), p.2)
    | '[' :: rest =>
      (match skipWs rest with
       | ']' :: r2 => some (Json.arr [], r2)
       | r2 => do
         let p ← parseItems fuel r2
         some (Json.arr p.1, p.2))
    | '\x7b' :: rest =>
      (match skipWs rest with
       | '\x7d' :: r2 => some (Json.obj [], r2)
       | r2 => do
         let p ← parseFields fuel r2
         some (Json.obj p.1, p.2))
    | rest => do
      let p ← parseNumLex rest
      some (Json.num (String.mk p.1), p.2)

/-- Comma-separated JSON array items up to the closing bracket. -/
def parseItems : Nat → List Char → Option (List Json × List Char)
  | 0, _ => none
  | fuel+1, cs => do
    let (v, r) ← parseVal fuel cs
    match skipWs r with
    | ',' :: r2 => do
      let p ← parseItems fuel r2
      some (v :: p.1, p.2)
    | ']' :: r2 => some ([v], r2)
    | _ => none

/-- Comma-separated JSON object members up to the closing brace. -/
def parseFields : Nat → List Char → Option (List (String × Json) × List Char)
  | 0, _ => none
  | fuel+1, cs =>
    match skipWs cs with
    | '"' :: r => do
      let (k, r1) ← parseStringBody r
      match skipWs r1 with
      | ':' :: r2 => do
        let (v, r3) ← parseVal fuel r2
        match skipWs r3 with
        | ',' :: r4 => do
          let p ← parseFields fuel r4
          some ((String.mk k, v) :: p.1, p.2)
        | '\x7d' :: r4 => some ([(String.mk k, v)], r4)
        | _ => none
      | _ => none
    | _ => none

end

/-- Model of JavaScript `JSON.parse`: `none` when `JSON.parse` throws a
`SyntaxError`.  The fuel `2 * s.length + 2` dominates the recursion depth,
since every two fuel steps consume at least one character. -/
def jsonParse (s : String) : Option Json :=
  match parseVal (2 * s.length + 2) s.toList with
  | some (v, rest) => if skipWs rest = [] then some v else none
  | none => none

/-!
## Relay endpoint (`validate-document` handler, DEPLOYMENT.md lines 461-600)
-/

/-- The markdown-fence stripping applied to the inference reply before
parsing (DEPLOYMENT.md lines 556-562):

    let cleanedText = responseText.trim();
    if (cleanedText.startsWith("```json")) cleanedText =
      cleanedText.replace(/^```json\n/, '').replace(/\n```$/, '');
    else if (cleanedText.startsWith("```")) cleanedText =
      cleanedText.replace(/^```\n/, '').replace(/\n```$/, '');
-/
def cleanText (responseText : String) : String :=
  let t := jsTrim responseText
  if strStarts t "```json" then
    dropTrailing (dropLeading t "```json\n") "\n```"
  else if strStarts t "```" then
    dropTrailing (dropLeading t "```\n") "\n```"
  else t

/-- A file as far as the embedding needs it: name, byte size, declared
media type (the raw bytes never influence any modelled control flow). -/
structure FileData where
  name : String
  size : Nat
  type : String
deriving Repr, DecidableEq

/-- One content block of the inference API message. -/
inductive ContentBlock where
  | text : String → ContentBlock
  | other : ContentBlock
deriving Repr, DecidableEq

/-- Token usage reported by the inference API. -/
structure ApiUsage where
  input_tokens : Nat
  output_tokens : Nat
deriving Repr, DecidableEq

/-- The inference API message (`anthropic.messages.create` result). -/
structure InferenceMessage where
  content : List ContentBlock
  usage : ApiUsage
deriving Repr, DecidableEq

/-- Oracle for the inference API call: either a message, or a thrown /
rejected error carrying `error.message`. -/
inductive ApiResult where
  | ok : InferenceMessage → ApiResult
  | err : String → ApiResult
deriving Repr, DecidableEq

/-- Oracle for `req.formData()`: the call throws (malformed body), or
parses with the `file` field absent or present. -/
inductive FormResult where
  | parseFail : String → FormResult
  | parsed : Option FileData → FormResult
deriving Repr, DecidableEq

/-- The request as seen by the relay handler: HTTP verb and form body. -/
structure RelayRequest where
  method : String
  form : FormResult
deriving Repr, DecidableEq

/-- Token usage field of the handler's success envelope. -/
structure UsageOut where
  inputTokens : Nat
  outputTokens : Nat
deriving Repr, DecidableEq

/-- The `result` field of the handler's 200 envelope: either the parsed
JSON value, or the raw-text fallback `\x7b rawResponse, parseError \x7d`. -/
inductive RelayResult where
  | parsedJson : Json → RelayResult
  | fallback : (rawResponse : String) → (parseError : String) → RelayResult
deriving Repr

/-- The JSON body of a handler response, by shape:
`okTrue` = `\x7b ok: true \x7d`;
`failure e d` = `\x7b success: false, error: e / details: d \x7d`
(`details` present only on the catch path);
`success r u` = `\x7b success: true, result: r, usage: u \x7d`. -/
inductive RelayBody where
  | okTrue : RelayBody
  | failure : (error : String) → (details : Option String) → RelayBody
  | success : RelayResult → UsageOut → RelayBody
deriving Repr

/-- An HTTP response: status, JSON body, headers. -/
structure HttpResponse where
  status : Nat
  body : RelayBody
  headers : List (String × String)
deriving Repr

/-- The constant `headers` object of the handler (DEPLOYMENT.md 462-467). -/
def corsHeaders : List (String × String) :=
  [("Access-Control-Allow-Origin", "*"),
   ("Access-Control-Allow-Headers", "Content-Type"),
   ("Access-Control-Allow-Methods", "POST, OPTIONS"),
   ("Content-Type", "application/json")]

/-- JavaScript truthiness of `process.env.ANTHROPIC_API_KEY`:
`undefined` and the empty string are falsy. -/
def keyConfigured : Option String → Bool
  | none => false
  | some s => !(s == "")

/-- `message.content[0].type === "text" ? message.content[0].text : ""`.
On an empty `content` array the property access throws a `TypeError`,
which the surrounding catch turns into a 500. -/
def extractText : List ContentBlock → Except String String
  | [] => .error "Cannot read properties of undefined (reading 'type')"
  | ContentBlock.text t :: _ => .ok t
  | ContentBlock.other :: _ => .ok ""

/-- Modelled first line of a JS `Error`'s `stack` (the real stack trace is
runtime-dependent; the claims only use that `details` is present). -/
def jsStack (m : String) : String := "Error: " ++ m

/-- The catch block (DEPLOYMENT.md 588-599): status 500 with
`error.message || "Internal server error"` and `details: error.stack`. -/
def catchResponse (m : String) : HttpResponse :=
  ⟨500, RelayBody.failure (if m == "" then "Internal server error" else m) (some (jsStack m)),
   corsHeaders⟩

/-- The `validate-document` handler (DEPLOYMENT.md lines 461-600).
`apiKey` is `process.env.ANTHROPIC_API_KEY`; `api` is the oracle for the
single inference API call.  The optional LaunchDarkly block (lines
488-501) only logs — every failure in it is caught locally — so it has no
effect on the response and is not modelled. -/
def relayHandler (apiKey : Option String) (req : RelayRequest) (api : ApiResult) :
    HttpResponse :=
  if req.method == "OPTIONS" then ⟨200, RelayBody.okTrue, corsHeaders⟩
  else if !(req.method == "POST") then
    ⟨405, RelayBody.failure "Method not allowed" none, corsHeaders⟩
  else if !(keyConfigured apiKey) then
    catchResponse "ANTHROPIC_API_KEY not configured"
  else
    match req.form with
    | FormResult.parseFail m => catchResponse m
    | FormResult.parsed none =>
      ⟨400, RelayBody.failure "No file provided" none, corsHeaders⟩
    | FormResult.parsed (some _file) =>
      match api with
      | ApiResult.err m => catchResponse m
      | ApiResult.ok msg =>
        match extractText msg.content with
        | Except.error m => catchResponse m
        | Except.ok responseText =>
          let cleaned := cleanText responseText
          let result :=
            match jsonParse cleaned with
            | some v => RelayResult.parsedJson v
            | none => RelayResult.fallback cleaned "Could not parse JSON response"
          ⟨200, RelayBody.success result ⟨msg.usage.input_tokens, msg.usage.output_tokens⟩,
           corsHeaders⟩

/-!
## Batch upload coordinator (`FileUpload` component, part_000)
-/

/-- Zero test on a JSON number lexeme: the value is zero iff the mantissa
(everything before any exponent marker) has no digit `1`-`9`. -/
def numIsZero (lex : String) : Bool :=
  (lex.toList.takeWhile (fun c => !(c = 'e' || c = 'E'))).all
    (fun c => !(c.isDigit && !(c = '0')))

/-- JavaScript truthiness of a JSON value. -/
def jsTruthy : Json → Bool
  | Json.null => false
  | Json.bool b => b
  | Json.num lex => !(numIsZero lex)
  | Json.str s => !(s == "")
  | Json.arr _ => true
  | Json.obj _ => true

/-- JavaScript property access `v.k` on a parsed JSON value: `none` means
`undefined` (missing field or non-object receiver).  `JSON.parse` keeps
the LAST duplicate key, hence the reversed lookup. -/
def getField (v : Json) (k : String) : Option Json :=
  match v with
  | Json.obj fs => fs.reverse.lookup k
  | _ => none

/-- Truthiness of a possibly-`undefined` JS value. -/
def jsTruthyOpt : Option Json → Bool
  | none => false
  | some v => jsTruthy v

/-- One entry of the coordinator's `results` array: either
`\x7b fileName, status: 'success', result \x7d` (the `result` field of
the parsed envelope, possibly `undefined`) or
`\x7b fileName, status: 'error', error \x7d`. -/
inductive FileOutcome where
  | success : (fileName : String) → (result : Option Json) → FileOutcome
  | error : (fileName : String) → (errValue : Json) → FileOutcome
deriving Repr

/-- `status === 'error'` of an outcome. -/
def FileOutcome.isError : FileOutcome → Bool
  | FileOutcome.error _ _ => true
  | FileOutcome.success _ _ => false

/-- The `fileName` field of an outcome. -/
def FileOutcome.fileName : FileOutcome → String
  | FileOutcome.success n _ => n
  | FileOutcome.error n _ => n

/-- The `UploadState` interface of the component (part_000 lines 4-10). -/
structure UploadState where
  uploading : Bool
  error : Option String
  results : List FileOutcome
  currentFile : Nat
  totalFiles : Nat
deriving Repr

/-- The initial `UploadState` (part_000 lines 15-21). -/
def initialUploadState : UploadState :=
  ⟨false, none, [], 0, 0⟩

/-- The component's state: the `files` array, the `dragActive` flag, the
`UploadState`, and the file input element's `value`. -/
structure ComponentState where
  files : List FileData
  dragActive : Bool
  state : UploadState
  inputValue : String
deriving Repr

/-- Oracle for one `fetch` of `/.netlify/functions/validate-document`:
either the promise rejects (network error, carrying `error.message`), or
a response arrives with `ok`, `status`, `statusText` and body text. -/
inductive FetchResult where
  | netError : String → FetchResult
  | response : (ok : Bool) → (status : Nat) → (statusText : String) → (body : String) →
      FetchResult
deriving Repr

/-- Modelled message of the `SyntaxError` thrown by `JSON.parse` (the
exact text is engine-dependent; it is never empty). -/
def jsonSyntaxErrorMessage : String := "Unexpected token in JSON"

/-- The body of the per-file loop of `handleUpload` (part_000 lines
61-106): one relay call and exactly one pushed outcome, every failure
mode converted by the catch into a `status: 'error'` entry. -/
def processFile (file : FileData) (r : FetchResult) : FileOutcome :=
  match r with
  | FetchResult.netError msg =>
    FileOutcome.error file.name (Json.str (if msg == "" then "Upload failed" else msg))
  | FetchResult.response ok status statusText body =>
    if !ok then
      FileOutcome.error file.name
        (Json.str ("HTTP " ++ toString status ++ ": " ++ statusText))
    else if body == "" then
      FileOutcome.error file.name (Json.str "Empty response from server")
    else
      match jsonParse body with
      | none => FileOutcome.error file.name (Json.str jsonSyntaxErrorMessage)
      | some data =>
        if jsTruthyOpt (getField data "success") then
          FileOutcome.success file.name (getField data "result")
        else
          FileOutcome.error file.name
            (match getField data "error" with
             | some e => if jsTruthy e then e else Json.str "Validation failed"
             | none => Json.str "Validation failed")

/-- The `for` loop of `handleUpload`: one outcome per file, in order,
the relay call for file `i` given by `oracle i`. -/
def uploadLoop (oracle : Nat → FetchResult) : Nat → List FileData → List FileOutcome
  | _, [] => []
  | i, f :: rest => processFile f (oracle i) :: uploadLoop oracle (i + 1) rest

/-- `handleUpload` (part_000 lines 54-109): early return on an empty
`files` array; otherwise run the loop and install the final state
`uploading: false, error: null, results, currentFile: 0, totalFiles: 0`. -/
def handleUpload (oracle : Nat → FetchResult) (cs : ComponentState) : ComponentState :=
  if cs.files.length == 0 then cs
  else
    { cs with state := ⟨false, none, uploadLoop oracle 0 cs.files, 0, 0⟩ }

/-- The PDF media-type filter used on a dropped or selected file list. -/
def pdfFilter (dropped : List FileData) : List FileData :=
  dropped.filter (fun f => f.type == "application/pdf")

/-- `handleDrop` (part_000 lines 30-42): keep only PDF entries; when some
remain they replace `files` and the state is cleared, otherwise `files`
is left untouched and an error message is installed. -/
def handleDrop (dropped : List FileData) (cs : ComponentState) : ComponentState :=
  let kept := pdfFilter dropped
  if kept.length > 0 then
    { cs with dragActive := false, files := kept, state := initialUploadState }
  else
    { cs with dragActive := false,
              state := ⟨false, some "Please upload PDF files only", [], 0, 0⟩ }

/-- `handleFileChange` (part_000 lines 44-52): same filtering and state
updates as `handleDrop`, without the drag flag. -/
def handleFileChange (selected : List FileData) (cs : ComponentState) : ComponentState :=
  let kept := pdfFilter selected
  if kept.length > 0 then
    { cs with files := kept, state := initialUploadState }
  else
    { cs with state := ⟨false, some "Please upload PDF files only", [], 0, 0⟩ }

/-- `handleReset` (part_000 lines 111-115): empty the file list, restore
the initial `UploadState`, clear the input element's value. -/
def handleReset (cs : ComponentState) : ComponentState :=
  { cs with files := [], state := initialUploadState, inputValue := "" }

/-!
## Failure / success classification of a relay call, as the claims use it
-/

/-- A relay call "fails" in the sense of claim C1: network error, non-2xx
status (`ok` false), empty body, or body that `JSON.parse` rejects. -/
def fetchFails : FetchResult → Bool
  | FetchResult.netError _ => true
  | FetchResult.response ok _ _ body =>
    !ok || body == "" || (jsonParse body).isNone

/-- A relay call "succeeds": a 2xx response with a nonempty body that
parses to a value whose `success` field is truthy. -/
def fetchSucceeds : FetchResult → Bool
  | FetchResult.netError _ => false
  | FetchResult.response ok _ _ body =>
    ok && !(body == "") &&
      (match jsonParse body with
       | some d => jsTruthyOpt (getField d "success")
       | none => false)

/-!
## Concrete sample data used by witnesses and counterexamples
-/

/-- A sample PDF file. -/
def pdfSample : FileData := ⟨"doc.pdf", 100, "application/pdf"⟩

/-- A sample non-PDF file. -/
def txtSample : FileData := ⟨"notes.txt", 50, "text/plain"⟩

/-- The component's state right after mounting. -/
def emptyComponent : ComponentState := ⟨[], false, initialUploadState, ""⟩

/-- A well-formed relay success body. -/
def okBodySample : String := "\x7b\"success\":true,\"result\":\x7b\x7d\x7d"

/-- A three-file batch for the batch-upload witness. -/
def filesW : List FileData :=
  [⟨"a.pdf", 1, "application/pdf"⟩, ⟨"b.pdf", 2, "application/pdf"⟩,
   ⟨"c.pdf", 3, "application/pdf"⟩]

/-- Fetch oracle for the batch-upload witness: the calls at positions 0
(network error) and 2 (empty body) fail, position 1 succeeds. -/
def oracleW : Nat → FetchResult := fun i =>
  if i == 0 then FetchResult.netError "network down"
  else if i == 2 then FetchResult.response true 200 "OK" ""
  else FetchResult.response true 200 "OK" okBodySample

/-- Component state holding the witness batch. -/
def csW : ComponentState := ⟨filesW, false, initialUploadState, ""⟩

end NaviaDoc

namespace NaviaDoc

/-!
## Helper lemmas
-/

theorem append_ne_empty_left (a b : String) (ha : a ≠ "") : a ++ b ≠ "" := by
  intro h
  have hl := congrArg String.length h
  rw [String.length_append, show ("" : String).length = 0 from rfl] at hl
  have h0 : a.length = 0 := by omega
  apply ha
  cases a with
  | mk data =>
    cases data with
    | nil => rfl
    | cons c cs => simp [String.length] at h0

theorem processFile_fileName (f : FileData) (r : FetchResult) :
    (processFile f r).fileName = f.name := by
  cases r with
  | netError m => rfl
  | response ok status st body =>
    simp only [processFile]
    split
    · rfl
    · split
      · rfl
      · split
        · rfl
        · split
          · rfl
          · rfl

theorem processFile_of_fails (f : FileData) (r : FetchResult)
    (h : fetchFails r = true) :
    ∃ s, processFile f r = FileOutcome.error f.name (Json.str s) ∧ s ≠ "" := by
  cases r with
  | netError m =>
    refine ⟨if m == "" then "Upload failed" else m, rfl, ?_⟩
    by_cases hm : m = ""
    · subst hm; decide
    · rw [if_neg (by simpa using hm)]; exact hm
  | response ok status st body =>
    cases ok with
    | false =>
      refine ⟨"HTTP " ++ toString status ++ ": " ++ st, rfl, ?_⟩
      apply append_ne_empty_left
      apply append_ne_empty_left
      apply append_ne_empty_left
      decide
    | true =>
      simp only [fetchFails, Bool.not_true, Bool.false_or, Bool.or_eq_true] at h
      cases hbe : body == "" with
      | true =>
        refine ⟨"Empty response from server", ?_, by decide⟩
        simp [processFile, hbe]
      | false =>
        rw [hbe] at h
        simp at h
        have hj : jsonParse body = none := h
        refine ⟨jsonSyntaxErrorMessage, ?_, by decide⟩
        simp [processFile, hbe, hj]

theorem processFile_of_succeeds (f : FileData) (r : FetchResult)
    (h : fetchSucceeds r = true) :
    ∃ v, processFile f r = FileOutcome.success f.name v := by
  cases r with
  | netError m => simp [fetchSucceeds] at h
  | response ok status st body =>
    simp only [fetchSucceeds, Bool.and_eq_true] at h
    obtain ⟨⟨hok, hbe⟩, hs⟩ := h
    subst hok
    cases hj : jsonParse body with
    | none => rw [hj] at hs; simp at hs
    | some d =>
      rw [hj] at hs
      refine ⟨getField d "result", ?_⟩
      have hbe0 : (body == "") = false := by
        cases hb : body == "" <;> simp [hb] at hbe ⊢
      have hs' : jsTruthyOpt (getField d "success") = true := hs
      simp [processFile, hbe0, hj, hs']

theorem succeeds_not_fails (r : FetchResult) (h : fetchSucceeds r = true) :
    fetchFails r = false := by
  cases r with
  | netError m => simp [fetchSucceeds] at h
  | response ok status st body =>
    simp only [fetchSucceeds, Bool.and_eq_true] at h
    obtain ⟨⟨hok, hbe⟩, hs⟩ := h
    subst hok
    cases hj : jsonParse body with
    | none => rw [hj] at hs; simp at hs
    | some d =>
      have hbe0 : (body == "") = false := by
        cases hb : body == "" <;> simp [hb] at hbe ⊢
      simp [fetchFails, hbe0, hj]

theorem uploadLoop_length (oracle : Nat → FetchResult) (files : List FileData) :
    ∀ i0, (uploadLoop oracle i0 files).length = files.length := by
  induction files with
  | nil => intro i0; rfl
  | cons f rest ih => intro i0; simp [uploadLoop, ih]

theorem uploadLoop_getElem? (oracle : Nat → FetchResult) (files : List FileData) :
    ∀ i0 i, (uploadLoop oracle i0 files)[i]? =
      (files[i]?).map (fun f => processFile f (oracle (i0 + i))) := by
  induction files with
  | nil => intro i0 i; simp [uploadLoop]
  | cons f rest ih =>
    intro i0 i
    cases i with
    | zero => simp [uploadLoop]
    | succ n =>
      simp only [uploadLoop, List.getElem?_cons_succ, ih (i0 + 1) n]
      have : i0 + 1 + n = i0 + (n + 1) := by omega
      rw [this]

/-!
## Relay endpoint claims
-/

/-- C6: every OPTIONS request to the relay endpoint yields status 200
with the empty-ok JSON body and the permissive CORS headers, for every
credential configuration, form content and inference outcome. -/
theorem relay_options_always_200 (apiKey : Option String) (req : RelayRequest)
    (api : ApiResult) (hm : req.method = "OPTIONS") :
    relayHandler apiKey req api = ⟨200, RelayBody.okTrue, corsHeaders⟩ ∧
    corsHeaders.lookup "Access-Control-Allow-Origin" = some "*" ∧
    corsHeaders.lookup "Access-Control-Allow-Headers" = some "Content-Type" ∧
    corsHeaders.lookup "Access-Control-Allow-Methods" = some "POST, OPTIONS" := by
  refine ⟨?_, rfl, rfl, rfl⟩
  simp [relayHandler, hm]

/-- Witness for C6: concrete OPTIONS request with no credential and an
erroring inference oracle still gets the 200 empty-ok response. -/
theorem relay_options_always_200_witness :
    relayHandler none ⟨"OPTIONS", FormResult.parsed none⟩ (ApiResult.err "down") =
      ⟨200, RelayBody.okTrue, corsHeaders⟩ ∧
    corsHeaders.lookup "Access-Control-Allow-Origin" = some "*" ∧
    corsHeaders.lookup "Access-Control-Allow-Headers" = some "Content-Type" ∧
    corsHeaders.lookup "Access-Control-Allow-Methods" = some "POST, OPTIONS" :=
  relay_options_always_200 none ⟨"OPTIONS", FormResult.parsed none⟩ (ApiResult.err "down") rfl

/-- C5: for every POST request with the `ANTHROPIC_API_KEY` credential
not configured (absent or empty), the handler answers 500 with the body
`success: false, error: "ANTHROPIC_API_KEY not configured"` plus
diagnostic details, whatever the form content and inference outcome. -/
theorem relay_missing_key_500 (apiKey : Option String) (req : RelayRequest)
    (api : ApiResult) (hm : req.method = "POST") (hk : keyConfigured apiKey = false) :
    relayHandler apiKey req api =
      ⟨500, RelayBody.failure "ANTHROPIC_API_KEY not configured"
        (some (jsStack "ANTHROPIC_API_KEY not configured")), corsHeaders⟩ := by
  simp [relayHandler, hm, hk, catchResponse]

/-- Witness for C5: concrete POST with no credential configured. -/
theorem relay_missing_key_500_witness :
    relayHandler none ⟨"POST", FormResult.parsed (some pdfSample)⟩ (ApiResult.err "x") =
      ⟨500, RelayBody.failure "ANTHROPIC_API_KEY not configured"
        (some (jsStack "ANTHROPIC_API_KEY not configured")), corsHeaders⟩ :=
  relay_missing_key_500 none ⟨"POST", FormResult.parsed (some pdfSample)⟩
    (ApiResult.err "x") rfl rfl

/-- C7: a request whose verb is neither POST nor OPTIONS is answered 405
with a `success: false` body; a POST with the credential configured whose
form holds no `file` field is answered 400 with a `success: false` body. -/
theorem relay_405_and_400 (apiKey : Option String) (req : RelayRequest)
    (api : ApiResult) :
    (req.method ≠ "POST" → req.method ≠ "OPTIONS" →
      relayHandler apiKey req api =
        ⟨405, RelayBody.failure "Method not allowed" none, corsHeaders⟩) ∧
    (req.method = "POST" → keyConfigured apiKey = true →
      req.form = FormResult.parsed none →
      relayHandler apiKey req api =
        ⟨400, RelayBody.failure "No file provided" none, corsHeaders⟩) := by
  constructor
  · intro hp ho
    have hp' : (req.method == "POST") = false := by simpa using hp
    have ho' : (req.method == "OPTIONS") = false := by simpa using ho
    simp [relayHandler, hp', ho']
  · intro hm hk hf
    simp [relayHandler, hm, hk, hf]

/-- Witness for C7: a GET request gets 405; a POST with the credential
set and no file field gets 400. -/
theorem relay_405_and_400_witness :
    relayHandler (some "sk-key") ⟨"GET", FormResult.parsed none⟩ (ApiResult.err "x") =
      ⟨405, RelayBody.failure "Method not allowed" none, corsHeaders⟩ ∧
    relayHandler (some "sk-key") ⟨"POST", FormResult.parsed none⟩ (ApiResult.err "x") =
      ⟨400, RelayBody.failure "No file provided" none, corsHeaders⟩ :=
  ⟨(relay_405_and_400 (some "sk-key") ⟨"GET", FormResult.parsed none⟩
      (ApiResult.err "x")).1 (by decide) (by decide),
   (relay_405_and_400 (some "sk-key") ⟨"POST", FormResult.parsed none⟩
      (ApiResult.err "x")).2 rfl rfl rfl⟩

/-- C9: the credential check precedes form reading: a POST with the
credential unconfigured and the `file` field missing is answered with
the 500 configuration error, never with the 400 missing-file error. -/
theorem relay_key_check_precedes_form (apiKey : Option String) (req : RelayRequest)
    (api : ApiResult) (hm : req.method = "POST") (hk : keyConfigured apiKey = false)
    (_hf : req.form = FormResult.parsed none) :
    relayHandler apiKey req api =
      ⟨500, RelayBody.failure "ANTHROPIC_API_KEY not configured"
        (some (jsStack "ANTHROPIC_API_KEY not configured")), corsHeaders⟩ ∧
    (relayHandler apiKey req api).status ≠ 400 := by
  have h : relayHandler apiKey req api =
      ⟨500, RelayBody.failure "ANTHROPIC_API_KEY not configured"
        (some (jsStack "ANTHROPIC_API_KEY not configured")), corsHeaders⟩ := by
    simp [relayHandler, hm, hk, catchResponse]
  refine ⟨h, ?_⟩
  rw [h]
  decide

/-- Witness for C9: concrete POST, no credential, no file field. -/
theorem relay_key_check_precedes_form_witness :
    relayHandler none ⟨"POST", FormResult.parsed none⟩ (ApiResult.err "x") =
      ⟨500, RelayBody.failure "ANTHROPIC_API_KEY not configured"
        (some (jsStack "ANTHROPIC_API_KEY not configured")), corsHeaders⟩ ∧
    (relayHandler none ⟨"POST", FormResult.parsed none⟩ (ApiResult.err "x")).status ≠ 400 :=
  relay_key_check_precedes_form none ⟨"POST", FormResult.parsed none⟩
    (ApiResult.err "x") rfl rfl rfl

/-- C2: when the inference reply's text does not parse as JSON after
fence-stripping, the handler still answers 200 with
`success: true, result: (rawResponse, parseError)`, the raw response
being the stripped text and the parse error a fixed nonempty message;
the parse failure is never surfaced as a request failure. -/
theorem relay_parse_failure_envelope (apiKey : Option String) (file : FileData)
    (msg : InferenceMessage) (t : String)
    (hk : keyConfigured apiKey = true)
    (ht : extractText msg.content = Except.ok t)
    (hp : jsonParse (cleanText t) = none) :
    relayHandler apiKey ⟨"POST", FormResult.parsed (some file)⟩ (ApiResult.ok msg) =
      ⟨200, RelayBody.success
        (RelayResult.fallback (cleanText t) "Could not parse JSON response")
        ⟨msg.usage.input_tokens, msg.usage.output_tokens⟩, corsHeaders⟩ ∧
    "Could not parse JSON response" ≠ "" := by
  refine ⟨?_, by decide⟩
  simp [relayHandler, hk, ht, hp]

/-- Witness for C2: the reply text `"not json"` yields the 200 fallback
envelope with `rawResponse = "not json"`. -/
theorem relay_parse_failure_envelope_witness :
    relayHandler (some "sk-key") ⟨"POST", FormResult.parsed (some pdfSample)⟩
      (ApiResult.ok ⟨[ContentBlock.text "not json"], ⟨5, 7⟩⟩) =
      ⟨200, RelayBody.success
        (RelayResult.fallback (cleanText "not json") "Could not parse JSON response")
        ⟨5, 7⟩, corsHeaders⟩ ∧
    "Could not parse JSON response" ≠ "" :=
  relay_parse_failure_envelope (some "sk-key") pdfSample
    ⟨[ContentBlock.text "not json"], ⟨5, 7⟩⟩ "not json" rfl rfl (by rfl)

/-- C3: stripping then parsing the fenced text
(backticks, `json` tag, newline, the object text, newline, backticks)
yields the object `a ↦ 1`; the plain object text is left unchanged by
stripping and parses to the same object. -/
theorem fence_strip_then_parse_examples :
    cleanText "```json\n\x7b\"a\":1\x7d\n```" = "\x7b\"a\":1\x7d" ∧
    jsonParse (cleanText "```json\n\x7b\"a\":1\x7d\n```") =
      some (Json.obj [("a", Json.num "1")]) ∧
    cleanText "\x7b\"a\":1\x7d" = "\x7b\"a\":1\x7d" ∧
    jsonParse "\x7b\"a\":1\x7d" = some (Json.obj [("a", Json.num "1")]) :=
  ⟨by rfl, by rfl, by rfl, by rfl⟩

/-!
## Coordinator claims
-/

/-- C8: `handleReset` empties the results, empties the file selection,
clears the error and the input element's value, and restores every field
of the upload state to its initial value, in one state transition. -/
theorem handleReset_restores_initial (cs : ComponentState) :
    (handleReset cs).files = [] ∧
    (handleReset cs).state = initialUploadState ∧
    (handleReset cs).state.results = [] ∧
    (handleReset cs).state.error = none ∧
    (handleReset cs).inputValue = "" :=
  ⟨rfl, rfl, rfl, rfl, rfl⟩

/-- C10: `handleUpload` on an empty accepted file list is a no-op — the
whole component state, file selection included, is returned unchanged. -/
theorem handleUpload_empty_noop (oracle : Nat → FetchResult) (cs : ComponentState)
    (h : cs.files = []) : handleUpload oracle cs = cs := by
  simp [handleUpload, h]

/-- Witness for C10: with no files selected, an upload attempt against a
failing network leaves the freshly mounted component state untouched. -/
theorem handleUpload_empty_noop_witness :
    handleUpload (fun _ => FetchResult.netError "down") emptyComponent = emptyComponent :=
  handleUpload_empty_noop (fun _ => FetchResult.netError "down") emptyComponent rfl

/-- Counterexample to C4 as stated: the mixed drop `[pdfSample, txtSample]`
contains a non-PDF file, yet the accepted batch does not remain empty
(the PDF subset is accepted) and no error message is set. -/
theorem mixed_drop_partial_acceptance :
    (∃ f ∈ [pdfSample, txtSample], f.type ≠ "application/pdf") ∧
    (handleDrop [pdfSample, txtSample] emptyComponent).files = [pdfSample] ∧
    (handleDrop [pdfSample, txtSample] emptyComponent).files ≠ [] ∧
    (handleDrop [pdfSample, txtSample] emptyComponent).state.error = none := by
  refine ⟨⟨txtSample, by decide, by decide⟩, rfl, by decide, rfl⟩

/-- C4 amended: for every drop or selection in which NO file has media
type `application/pdf`, the accepted batch is left unchanged (hence
remains empty when it was empty) and the error message is set; a mixed
selection instead accepts exactly its PDF entries. -/
theorem nonPdf_selection_rejected (dropped : List FileData) (cs : ComponentState)
    (h : ∀ f ∈ dropped, f.type ≠ "application/pdf") :
    (handleDrop dropped cs).files = cs.files ∧
    (handleDrop dropped cs).state.error = some "Please upload PDF files only" ∧
    (handleFileChange dropped cs).files = cs.files ∧
    (handleFileChange dropped cs).state.error = some "Please upload PDF files only" := by
  have hf : pdfFilter dropped = [] := by
    rw [pdfFilter, List.filter_eq_nil_iff]
    intro f hmem
    simpa using h f hmem
  refine ⟨?_, ?_, ?_, ?_⟩ <;> simp [handleDrop, handleFileChange, hf]

/-- Witness for the amended C4: dropping a single text file on a fresh
component leaves the batch empty and sets the error message. -/
theorem nonPdf_selection_rejected_witness :
    (handleDrop [txtSample] emptyComponent).files = emptyComponent.files ∧
    (handleDrop [txtSample] emptyComponent).state.error =
      some "Please upload PDF files only" ∧
    (handleFileChange [txtSample] emptyComponent).files = emptyComponent.files ∧
    (handleFileChange [txtSample] emptyComponent).state.error =
      some "Please upload PDF files only" :=
  nonPdf_selection_rejected [txtSample] emptyComponent (by decide)

/-- C1: for a nonempty batch in which every relay call either fails
(network error, non-2xx, empty body, malformed body) or succeeds, the
final results array has exactly one entry per input file, in input
order, each carrying its file's name; an entry is `status: 'error'`
with a nonempty human-readable message exactly when its call failed,
and `status: 'success'` when its call succeeded — no file is skipped
and no failure aborts the processing of later files. -/
theorem handleUpload_per_file_outcomes
    (files : List FileData) (oracle : Nat → FetchResult) (cs : ComponentState)
    (hfiles : cs.files = files) (hne : files ≠ [])
    (hdi : ∀ i, i < files.length →
      fetchFails (oracle i) = true ∨ fetchSucceeds (oracle i) = true) :
    ((handleUpload oracle cs).state.results).length = files.length ∧
    ∀ i, i < files.length →
      ∃ f o, files[i]? = some f ∧
        ((handleUpload oracle cs).state.results)[i]? = some o ∧
        o.fileName = f.name ∧
        o.isError = fetchFails (oracle i) ∧
        (fetchFails (oracle i) = true →
          ∃ s, o = FileOutcome.error f.name (Json.str s) ∧ s ≠ "") ∧
        (fetchSucceeds (oracle i) = true →
          ∃ v, o = FileOutcome.success f.name v) := by
  have hlen0 : (cs.files.length == 0) = false := by
    rw [hfiles]
    simp only [beq_eq_false_iff_ne, ne_eq]
    intro h0
    exact hne (List.length_eq_zero.mp h0)
  have hres : (handleUpload oracle cs).state.results = uploadLoop oracle 0 files := by
    simp [handleUpload, hlen0, hfiles, hne]
  constructor
  · rw [hres, uploadLoop_length]
  · intro i hi
    obtain ⟨f, hfget⟩ : ∃ f, files[i]? = some f := by
      rw [List.getElem?_eq_getElem hi]; exact ⟨_, rfl⟩
    have hoget : ((handleUpload oracle cs).state.results)[i]? =
        some (processFile f (oracle i)) := by
      rw [hres, uploadLoop_getElem? oracle files 0 i, hfget]
      simp
    refine ⟨f, processFile f (oracle i), hfget, hoget, processFile_fileName f (oracle i),
      ?_, ?_, ?_⟩
    · rcases hdi i hi with hfail | hsucc
      · rw [hfail]
        obtain ⟨s, hsx, -⟩ := processFile_of_fails f (oracle i) hfail
        rw [hsx]
        rfl
      · rw [succeeds_not_fails (oracle i) hsucc]
        obtain ⟨v, hsx⟩ := processFile_of_succeeds f (oracle i) hsucc
        rw [hsx]
        rfl
    · intro hfail
      exact processFile_of_fails f (oracle i) hfail
    · intro hsucc
      exact processFile_of_succeeds f (oracle i) hsucc

/-- Witness for C1: a three-file batch whose calls fail at positions 0
(network error) and 2 (empty body) and succeed at position 1. -/
theorem handleUpload_per_file_outcomes_witness :
    ((handleUpload oracleW csW).state.results).length = filesW.length ∧
    ∀ i, i < filesW.length →
      ∃ f o, filesW[i]? = some f ∧
        ((handleUpload oracleW csW).state.results)[i]? = some o ∧
        o.fileName = f.name ∧
        o.isError = fetchFails (oracleW i) ∧
        (fetchFails (oracleW i) = true →
          ∃ s, o = FileOutcome.error f.name (Json.str s) ∧ s ≠ "") ∧
        (fetchSucceeds (oracleW i) = true →
          ∃ v, o = FileOutcome.success f.name v) :=
  handleUpload_per_file_outcomes filesW oracleW csW rfl (by decide) (by decide)

end NaviaDoc
